import Mathlib

/-!
Shallow embedding of the scrape-and-parse pipeline of
`src/stock_market/analysis/index.py` (functions `IndexView.__init__`,
`_sp500`, `_stock_performers_ws`), together with the Python string,
`bs4` and `pandas` semantics the code relies on.

Conventions:
* Python strings are Lean `String`s; `str.split("\n")`, `str.replace("\n","")`,
  `str.upper()` and `filter(None, ...)` are modelled character-exactly below.
* A parsed HTML document (`bs4.BeautifulSoup`) is a `Node` tree; a tag's
  `class` attribute is stored as its space-joined string, which is exactly
  what bs4 matches a compiled-regex class filter against for multi-valued
  attributes.  The regex `element element--table ({metric})` built by the
  code matches precisely the class strings containing the substring
  `element element--table <metric>` (the parentheses are a regex group).
* Fallible Python code is `Except PyError _`: an un-caught Python exception
  is `.error e`, while a normal return (including `return None`) is `.ok _`.
* `requests.get` is modelled by counting GET events: the page content is a
  fixed `Node` (the same parse results from every fetch of the url within
  one call) and `_sp500` additionally returns how many GETs it performed.
-/

namespace StockMarket

/-- Python `str.replace("\n", "")`: remove every newline character. -/
def stripNl (s : String) : String :=
  String.mk (s.data.filter (fun c => c ≠ '\n'))

/-- Python `str.split(sep)` on character lists, for a one-character
separator: `""` splits to `[""]`, separators at the ends produce empty
fragments. -/
def splitChars (sep : Char) : List Char → List (List Char)
  | [] => [[]]
  | c :: rest =>
    if c = sep then [] :: splitChars sep rest
    else
      match splitChars sep rest with
      | [] => [[c]]
      | g :: gs => (c :: g) :: gs

/-- Python `str.split("\n")`. -/
def splitNl (s : String) : List String :=
  (splitChars '\n' s.data).map String.mk

/-- Python `list(filter(None, s.split("\n")))`: split on newlines and drop
the empty fragments. -/
def splitFilter (s : String) : List String :=
  (splitNl s).filter (fun t => t ≠ "")

/-- `charsPrefixOf p l` : `p` is a prefix of `l`. -/
def charsPrefixOf : List Char → List Char → Bool
  | [], _ => true
  | _ :: _, [] => false
  | a :: as, b :: bs => a = b && charsPrefixOf as bs

/-- `charsSub p l` : `p` occurs as a contiguous run inside `l`. -/
def charsSub (p : List Char) : List Char → Bool
  | [] => charsPrefixOf p []
  | b :: bs => charsPrefixOf p (b :: bs) || charsSub p bs

/-- `strContains s p` : Python `re.search` of the literal text `p` inside
`s` succeeds, i.e. `p` is a substring of `s`. -/
def strContains (s p : String) : Bool :=
  charsSub p.data s.data

/-- Python `str.upper()` (the identifiers involved are ASCII). -/
def pyUpper (s : String) : String :=
  String.mk (s.data.map Char.toUpper)

/-- A parsed HTML subtree: a tag with its name, its space-joined `class`
attribute and its direct children, or a text node (`bs4.NavigableString`). -/
inductive Node where
  | elem (tag : String) (classAttr : String) (children : List Node)
  | text (s : String)

/-- `len(tag)` in bs4: the number of direct children (`tag.contents`). -/
def nodeLen : Node → Nat
  | .elem _ _ cs => cs.length
  | .text _ => 0

mutual

/-- `tag.text` in bs4: concatenation of all descendant text, in document
order. -/
def nodeText : Node → String
  | .text s => s
  | .elem _ _ cs => nodesText cs

def nodesText : List Node → String
  | [] => ""
  | n :: ns => nodeText n ++ nodesText ns

end

mutual

/-- All elements with tag name `t` inside a node, itself included, in
document (preorder) order. -/
def findAllFrom (t : String) : Node → List Node
  | .text _ => []
  | .elem tag cls cs =>
    (if tag = t then [Node.elem tag cls cs] else []) ++ findAllList t cs

def findAllList (t : String) : List Node → List Node
  | [] => []
  | n :: ns => findAllFrom t n ++ findAllList t ns

end

/-- bs4 `tag.find_all(t)`: all descendants (the tag itself excluded) with
tag name `t`, in document order. -/
def findAll (t : String) : Node → List Node
  | .text _ => []
  | .elem _ _ cs => findAllList t cs

mutual

/-- First element, itself included, whose tag is `t` and whose class
attribute contains `pat` as a substring, in document order. -/
def findClassFrom (t pat : String) : Node → Option Node
  | .text _ => none
  | .elem tag cls cs =>
    if tag = t && strContains cls pat then some (Node.elem tag cls cs)
    else findClassList t pat cs

def findClassList (t pat : String) : List Node → Option Node
  | [] => none
  | n :: ns =>
    match findClassFrom t pat n with
    | some r => some r
    | none => findClassList t pat ns

end

/-- bs4 `soup.find(t, {"class": re.compile(pat-as-literal)})`: first
descendant with tag `t` whose joined class string contains the pattern;
`none` when there is no match. -/
def findByClass (t pat : String) : Node → Option Node
  | .text _ => none
  | .elem _ _ cs => findClassList t pat cs

/-- An un-caught Python exception escaping the modelled code. -/
inductive PyError where
  /-- `TypeError: object of type 'NoneType' has no len()` — raised by
  `len(ws_metric)` when `find` returned `None`. -/
  | typeErrorNoneHasNoLen
  /-- `IndexError: list index out of range` — raised by `data[i + 1]`. -/
  | indexErrorOutOfRange
  /-- pandas `DataFrame(data, columns=...)`: `{expected} columns passed,
  passed data had {got} columns`. -/
  | valueErrorColumnsMismatch (expected got : Nat)
  /-- `raise Warning("Please select from the available indexes: ...")` in
  `IndexView.__init__`. -/
  | warningUnsupportedIndex
deriving DecidableEq

/-- A Python `dict` with string keys and values: an association list with
unique keys in insertion order. -/
abbrev PyDict := List (String × String)

/-- Python `d[k] = v`: overwrite in place when `k` is present (a dict's
keys are unique, so the first hit is the only one), append otherwise. -/
def dictInsert : PyDict → String → String → PyDict
  | [], k, v => [(k, v)]
  | p :: ds, k, v => if p.1 = k then (k, v) :: ds else p :: dictInsert ds k v

/-- Python `d.get(k)`. -/
def dictGet (d : PyDict) (k : String) : Option String :=
  (d.find? (fun p => p.1 = k)).map (fun p => p.2)

/-- The loop
`for i in range(0, len(data), 2): data_1[data[i].text.replace("\n","")] = data[i+1].text.replace("\n","")`
over the texts of the located `td` cells, starting from dict `d`.
When the cell count is odd the final iteration evaluates `data[i + 1]`
with `i + 1 == len(data)` and raises `IndexError`. -/
def pairLoop : List String → PyDict → Except PyError PyDict
  | [], d => .ok d
  | [_], _ => .error .indexErrorOutOfRange
  | k :: v :: rest, d => pairLoop rest (dictInsert d (stripNl k) (stripNl v))

/-- Lines 125–129 of `index.py`: build the period-performance dict from the
cell sequence `ws_dict[performance_by_period].find_all("td")` (given here
by each cell's text). -/
def parsePairs (cells : List String) : Except PyError PyDict :=
  pairLoop cells []

/-- The `pandas.DataFrame` produced by `_stock_performers_ws`: the column
names and the rows, a missing cell (NaN padding) being `none`. -/
structure Frame where
  columns : List String
  rows : List (List (Option String))
deriving DecidableEq

/-- Width of the object array pandas builds from a list of row lists: the
longest row's length. -/
def maxLen (rows : List (List String)) : Nat :=
  rows.foldl (fun a r => max a r.length) 0

/-- One row of `lib.to_object_array`: the row's cells, padded with `None`
up to the array width `m`. -/
def padRow (m : Nat) (r : List String) : List (Option String) :=
  r.map some ++ List.replicate (m - r.length) none

/-- `pd.DataFrame(rows, columns=cols)` for a list of row lists: with no
rows, an empty frame with the given columns; otherwise pandas builds an
object array as wide as the longest row, padding shorter rows with `None`,
and raises (`{n} columns passed, passed data had {m} columns`) when the
column-name count differs from that width. -/
def dataFrame (rows : List (List String)) (cols : List String) : Except PyError Frame :=
  match rows with
  | [] => .ok ⟨cols, []⟩
  | _ :: _ =>
    if cols.length = maxLen rows then
      .ok ⟨cols, rows.map (padRow (maxLen rows))⟩
    else .error (.valueErrorColumnsMismatch cols.length (maxLen rows))

/-- `_stock_performers_ws(data)` (lines 146–171 of `index.py`):
`find_all("tr")`; `None` when there are no rows; otherwise row 0's
newline-split, empty-filtered text is the column names, every later row
the same way is a data row, and the rows are assembled with
`pd.DataFrame(stock_data, columns=col_names)`. -/
def stockPerformersWs (data : Node) : Except PyError (Option Frame) :=
  match findAll "tr" data with
  | [] => .ok none
  | t0 :: rest =>
    (dataFrame (rest.map (fun t => splitFilter (nodeText t)))
      (splitFilter (nodeText t0))).map some

/-- `performance_by_period`. -/
def performanceByPeriod : String := "performance"

/-- `performance_top_stocks`. -/
def performanceTopStocks : String := "ByIndexGainers"

/-- `performance_bottom_stocks`. -/
def performanceBottomStocks : String := "ByIndexDecliners"

/-- The class pattern `re.compile(f"element element--table ({metric})")`:
as a regex it matches exactly the class strings containing
`element element--table <metric>`. -/
def classPattern (metric : String) : String :=
  "element element--table " ++ metric

/-- One iteration of the metric loop of `_sp500` for `metric`:
`requests.get` (re-fetching `doc`), then
`.find("div", {"class": regex})`, then `if len(ws_metric) == 0`. -/
def locateMetric (doc : Node) (metric : String) : Option Node :=
  findByClass "div" (classPattern metric) doc

/-- The `for metric in [...]` loop of `_sp500` (lines 100–119): for each
metric one GET and one locate; `len(None)` raises `TypeError` when there is
no match; an empty match prints and returns `None` (the typed failure);
otherwise the tag is stored and the loop continues.  Returns the located
tags in metric order, paired with the number of GETs performed. -/
def locateLoop (doc : Node) : List String → Except PyError (Option (List Node)) × Nat
  | [] => (.ok (some []), 0)
  | m :: rest =>
    match locateMetric doc m with
    | none => (.error .typeErrorNoneHasNoLen, 1)
    | some t =>
      if nodeLen t = 0 then (.ok none, 1)
      else
        match locateLoop doc rest with
        | (r, n) => (r.map (fun o => o.map (fun ts => t :: ts)), n + 1)

/-- The result dict of `_sp500`: the three slots of `metric_data`.  The two
performer slots hold whatever `_stock_performers_ws` returned — possibly
`None`. -/
structure Sp500Data where
  performance : PyDict
  gainers : Option Frame
  decliners : Option Frame
deriving DecidableEq

/-- `_sp500()` (lines 90–142 of `index.py`), with the live page modelled by
the fixed parsed document `doc` each `requests.get` yields.  The first
component is the call's outcome — an escaped Python exception, the typed
failure `None`, or the metric dict — and the second the number of HTTP GETs
performed. -/
def sp500 (doc : Node) : Except PyError (Option Sp500Data) × Nat :=
  match locateLoop doc [performanceByPeriod, performanceTopStocks, performanceBottomStocks] with
  | (.error e, n) => (.error e, n)
  | (.ok none, n) => (.ok none, n)
  | (.ok (some ts), n) =>
    match ts with
    | [tPerf, tGain, tDecl] =>
      match parsePairs ((findAll "td" tPerf).map nodeText) with
      | .error e => (.error e, n)
      | .ok data1 =>
        match stockPerformersWs tGain with
        | .error e => (.error e, n)
        | .ok data2 =>
          match stockPerformersWs tDecl with
          | .error e => (.error e, n)
          | .ok data3 => (.ok (some ⟨data1, data2, data3⟩), n)
    | _ => (.ok none, n)

/-- `AVAILABLE_INDEX` (line 9 of `index.py`). -/
def AVAILABLE_INDEX : List String := ["SP500"]

/-- An observable side effect of `IndexView.__init__`. -/
inductive InitEvent where
  /-- `importlib.import_module("stock_market.data")` + `getattr`: loading
  the static reference table (no network involved). -/
  | importData
  /-- An outbound HTTP request (never emitted by `__init__`). -/
  | networkGet
deriving DecidableEq

/-- `IndexView.__init__(index)` (lines 23–46 of `index.py`): check
`index.upper()` against `AVAILABLE_INDEX` and raise `Warning` on failure,
otherwise load the reference data.  Returns the raised exception (if any)
paired with the trace of side effects performed before returning or
raising. -/
def indexViewInit (index : String) : Option PyError × List InitEvent :=
  if AVAILABLE_INDEX.contains (pyUpper index) then
    (none, [InitEvent.importData])
  else (some .warningUnsupportedIndex, [])

/-! Concrete documents used to exercise the pipeline. -/

/-- A `td` cell holding the given text. -/
def tdN (s : String) : Node := .elem "td" "" [.text s]

/-- A `tr` row whose visual text is the given string. -/
def trN (s : String) : Node := .elem "tr" "" [.text s]

/-- A well-formed period-performance block: the expected class, four `td`
cells alternating label and value. -/
def perfDiv : Node :=
  .elem "div" "element element--table performance"
    [.elem "table" "" [tdN "1 Day", tdN "+1.2%", tdN "1 Year", tdN "+15.0%"]]

/-- A well-formed gainers block: header row plus two data rows, two cells
each. -/
def gainersDiv : Node :=
  .elem "div" "element element--table ByIndexGainers"
    [.elem "table" "" [trN "Sym\nPrice", trN "AAA\n1.0", trN "BBB\n2.0"]]

/-- A well-formed decliners block: header row plus one data row. -/
def declinersDiv : Node :=
  .elem "div" "element element--table ByIndexDecliners"
    [.elem "table" "" [trN "Sym\nPrice", trN "CCC\n3.0"]]

/-- A synthetic page on which every step of `_sp500` succeeds. -/
def goodDoc : Node :=
  .elem "[document]" "" [.elem "body" "" [perfDiv, gainersDiv, declinersDiv]]

/-- A gainers block that locates fine (non-empty contents) but contains no
`tr` rows at all, so `_stock_performers_ws` returns `None`. -/
def gainersDivNoRows : Node :=
  .elem "div" "element element--table ByIndexGainers" [.text "placeholder"]

/-- The page of `goodDoc` with the gainers block replaced by the row-less
one. -/
def partialDoc : Node :=
  .elem "[document]" "" [.elem "body" "" [perfDiv, gainersDivNoRows, declinersDiv]]

/-- A page with no matching block at all for any metric. -/
def emptyDoc : Node :=
  .elem "[document]" "" [.elem "body" "" [.elem "div" "content" [.text "nothing here"]]]

/-- A page whose period-performance block matches the class pattern but has
no contents at all (`len(ws_metric) == 0`). -/
def emptyPerfDoc : Node :=
  .elem "[document]" "" [.elem "div" "element element--table performance" []]

/-- A performer container whose only data row is narrower than the header:
header `A`,`B` but a single one-cell data row. -/
def shortRowContainer : Node :=
  .elem "div" "" [trN "A\nB", trN "x"]

/-- A performer container with header `A`,`B`, one full data row and one
one-cell data row (the widest row matches the header). -/
def mixedRowContainer : Node :=
  .elem "div" "" [trN "A\nB", trN "x\ny", trN "z"]

/-- A performer container with no `tr` rows (but non-empty contents). -/
def noRowsContainer : Node :=
  .elem "div" "" [.text "no table here"]

/-!  Definitions taken from the specification's words, for comparison with
the code-derived definitions above (C6/C8 speak of the mapping "built by
taking cells pairwise" and of the "last occurrence" of a label). -/

/-- From the spec: the label/value pairs of a cell sequence, "taking cells
pairwise: even-indexed cell → key, the following odd-indexed cell → value",
line-break characters stripped from each cell's text (§4.4). -/
def specPairs : List String → List (String × String)
  | k :: v :: rest => (stripNl k, stripNl v) :: specPairs rest
  | _ => []

/-- From the spec: the PeriodMap of a cell sequence — the pairwise pairs
entered in order into a mapping with unique keys. -/
def specPairwiseMap (cells : List String) : PyDict :=
  (specPairs cells).foldl (fun d p => dictInsert d p.1 p.2) []

/-- From the spec: the value paired with the last occurrence of label `k`
in a pair sequence ("last-write-wins"). -/
def lastVal (ps : List (String × String)) (k : String) : Option String :=
  ps.foldl (fun acc p => if p.1 = k then some p.2 else acc) none

example : sp500 goodDoc =
    (.ok (some ⟨[("1 Day", "+1.2%"), ("1 Year", "+15.0%")],
      some ⟨["Sym", "Price"], [[some "AAA", some "1.0"], [some "BBB", some "2.0"]]⟩,
      some ⟨["Sym", "Price"], [[some "CCC", some "3.0"]]⟩⟩), 3) := by rfl

example : sp500 partialDoc =
    (.ok (some ⟨[("1 Day", "+1.2%"), ("1 Year", "+15.0%")],
      none,
      some ⟨["Sym", "Price"], [[some "CCC", some "3.0"]]⟩⟩), 3) := by rfl

example : sp500 emptyDoc = (.error .typeErrorNoneHasNoLen, 1) := by rfl

example : parsePairs ["X"] = .error .indexErrorOutOfRange := by rfl

example : parsePairs [] = .ok [] := by rfl

example : parsePairs ["X", "1", "X", "2"] = .ok [("X", "2")] := by rfl

example : stockPerformersWs (.elem "div" "" [trN "A\nB", trN "x"]) =
    .error (.valueErrorColumnsMismatch 2 1) := by rfl

example : stockPerformersWs (.elem "div" "" [trN "A\nB", trN "x\ny", trN "z"]) =
    .ok (some ⟨["A", "B"], [[some "x", some "y"], [some "z", none]]⟩) := by rfl

example : indexViewInit "DOW" = (some .warningUnsupportedIndex, []) := by rfl

example : indexViewInit "sp500" = (none, [.importData]) := by rfl

/-! Helper lemmas. -/

/-- On an even number of cells the pairing loop succeeds and folds the
pairwise pairs into the dict. -/
theorem pairLoop_even : ∀ (cells : List String) (d : PyDict), cells.length % 2 = 0 →
    pairLoop cells d = .ok ((specPairs cells).foldl (fun a p => dictInsert a p.1 p.2) d)
  | [], _, _ => rfl
  | [_], _, h => by simp only [List.length_cons, List.length_nil] at h; omega
  | k :: v :: rest, d, h => by
    have h2 : rest.length % 2 = 0 := by
      simp only [List.length_cons] at h; omega
    simpa [pairLoop, specPairs] using
      pairLoop_even rest (dictInsert d (stripNl k) (stripNl v)) h2

/-- On an odd number of cells the pairing loop raises `IndexError` at its
final iteration. -/
theorem pairLoop_odd : ∀ (cells : List String) (d : PyDict), cells.length % 2 = 1 →
    pairLoop cells d = .error .indexErrorOutOfRange
  | [], _, h => by simp only [List.length_nil] at h; omega
  | [_], _, _ => rfl
  | k :: v :: rest, d, h => by
    have h2 : rest.length % 2 = 1 := by
      simp only [List.length_cons] at h; omega
    simpa [pairLoop] using pairLoop_odd rest (dictInsert d (stripNl k) (stripNl v)) h2

/-- Looking up `k'` after `d[k] = v`. -/
theorem dictGet_insert : ∀ (d : PyDict) (k v k' : String),
    dictGet (dictInsert d k v) k' = if k' = k then some v else dictGet d k'
  | [], k, v, k' => by
    by_cases h : k' = k
    · subst h; simp [dictInsert, dictGet, List.find?]
    · have h2 : ¬k = k' := fun e => h e.symm
      simp [dictInsert, dictGet, List.find?, h, h2]
  | p :: ds, k, v, k' => by
    have ih := dictGet_insert ds k v k'
    by_cases h1 : p.1 = k <;> by_cases h2 : k' = k <;> by_cases h3 : p.1 = k' <;>
      simp_all [dictInsert, dictGet, List.find?, eq_comm]

/-- Looking up `k` in a dict extended by a pair sequence: the fold of the
"latest value wins" step over the sequence. -/
theorem dictGet_foldl : ∀ (ps : List (String × String)) (d : PyDict) (k : String),
    dictGet (ps.foldl (fun a p => dictInsert a p.1 p.2) d) k
      = ps.foldl (fun acc p => if p.1 = k then some p.2 else acc) (dictGet d k)
  | [], _, _ => rfl
  | p :: ps, d, k => by
    have ih := dictGet_foldl ps (dictInsert d p.1 p.2) k
    simp only [List.foldl_cons]
    rw [ih, dictGet_insert]
    by_cases h : p.1 = k
    · rw [if_pos (h.symm), if_pos h]
    · rw [if_neg (fun e => h e.symm), if_neg h]

/-- Folding `max` over rows no longer than `a` leaves `a` unchanged. -/
theorem foldl_max_eq : ∀ (rs : List (List String)) (a : Nat),
    (∀ r ∈ rs, r.length ≤ a) → rs.foldl (fun x r => max x r.length) a = a
  | [], _, _ => rfl
  | r :: rs, a, h => by
    have h1 : max a r.length = a := Nat.max_eq_left (h r (by simp))
    simp only [List.foldl_cons, h1]
    exact foldl_max_eq rs a (fun x hx => h x (by simp [hx]))

/-- The object-array width of a non-empty row set whose rows all have
length `N` is `N`. -/
theorem maxLen_const : ∀ (rs : List (List String)) (N : Nat), rs ≠ [] →
    (∀ r ∈ rs, r.length = N) → maxLen rs = N
  | [], _, h, _ => absurd rfl h
  | r :: rs, N, _, h => by
    have hr : max 0 r.length = N := by rw [h r (by simp)]; exact Nat.zero_max N
    simp only [maxLen, List.foldl_cons, hr]
    exact foldl_max_eq rs N (fun x hx => le_of_eq (h x (by simp [hx])))

/-- When the locate loop passes every metric, it has performed one GET per
metric. -/
theorem locateLoop_count (doc : Node) : ∀ (ms : List String) (ts : List Node),
    (locateLoop doc ms).1 = .ok (some ts) → (locateLoop doc ms).2 = ms.length
  | [], _, _ => rfl
  | m :: rest, ts, h => by
    rcases hr : locateLoop doc rest with ⟨r, n⟩
    cases hm : locateMetric doc m with
    | none => simp [locateLoop, hm] at h
    | some t =>
      by_cases hz : nodeLen t = 0
      · simp [locateLoop, hm, hz] at h
      · simp [locateLoop, hm, hz, hr] at h ⊢
        cases r with
        | error e => simp [Except.map] at h
        | ok o =>
          cases o with
          | none => simp [Except.map] at h
          | some ts2 =>
            have hn : n = rest.length := by
              have h2 := locateLoop_count doc rest ts2 (by rw [hr])
              rw [hr] at h2
              exact h2
            omega

/-- A row of length `N` padded to width `N` is just the row with its cells
wrapped. -/
theorem padRow_eq (x : List String) (N : Nat) (h : x.length = N) :
    padRow N x = x.map some := by
  simp [padRow, h, Nat.sub_self]

/-- Padding a row set whose rows all have the target width changes
nothing. -/
theorem map_padRow_eq : ∀ (rows : List (List String)) (N : Nat),
    (∀ r ∈ rows, r.length = N) →
    rows.map (padRow N) = rows.map (fun r => r.map some)
  | [], _, _ => rfl
  | r :: rs, N, h => by
    simp only [List.map_cons]
    rw [padRow_eq r N (h r (by simp)),
      map_padRow_eq rs N (fun x hx => h x (by simp [hx]))]

/-- Fragments surviving the empty-fragment filter are non-empty. -/
theorem splitFilter_ne_empty {s x : String} (h : x ∈ splitFilter s) : x ≠ "" := by
  have h2 := (List.mem_filter.mp h).2
  simpa using h2

/-- Within `_sp500`, the GET count is exactly the locate loop's count,
whatever happens afterwards. -/
theorem sp500_count (doc : Node) :
    (sp500 doc).2 =
      (locateLoop doc [performanceByPeriod, performanceTopStocks, performanceBottomStocks]).2 := by
  unfold sp500
  split
  all_goals rename_i heq
  all_goals rw [heq]
  all_goals repeat' split
  all_goals rfl

/-- A successful `_sp500` call means the locate loop passed every
metric. -/
theorem sp500_success_locate (doc : Node) (b : Sp500Data)
    (h : (sp500 doc).1 = .ok (some b)) :
    ∃ ts, (locateLoop doc [performanceByPeriod, performanceTopStocks, performanceBottomStocks]).1
      = .ok (some ts) := by
  unfold sp500 at h
  split at h
  · simp at h
  · simp at h
  · rename_i ts n heq
    exact ⟨ts, by rw [heq]⟩

/-! The claims. -/

/-- Claim C1 counterexample: on a page whose gainers block locates fine but
contains no table rows, `_sp500` returns a partially populated bundle — the
period map and the decliners table hold data while the gainers slot holds
the failure value `None`. -/
theorem c1_no_partial_bundle_cex :
    (sp500 partialDoc).1 =
      .ok (some ⟨[("1 Day", "+1.2%"), ("1 Year", "+15.0%")], none,
        some ⟨["Sym", "Price"], [[some "CCC", some "3.0"]]⟩⟩) ∧
    ([("1 Day", "+1.2%"), ("1 Year", "+15.0%")] : PyDict) ≠ [] :=
  ⟨rfl, by decide⟩

/-- Claim C1 (amended): the all-or-nothing guarantee holds only for the
locate steps — an empty located container makes the whole call return the
typed failure with no bundle — while a performer table with no rows does
not abort the call: its failure value `None` is stored in the bundle slot
next to the other slots' data. -/
theorem c1_no_partial_bundle_amended :
    (∀ doc t, locateMetric doc performanceByPeriod = some t → nodeLen t = 0 →
      sp500 doc = (.ok none, 1)) ∧
    (∀ doc t1 t2 t3 d1 r3 n,
      locateLoop doc [performanceByPeriod, performanceTopStocks, performanceBottomStocks]
        = (.ok (some [t1, t2, t3]), n) →
      parsePairs ((findAll "td" t1).map nodeText) = .ok d1 →
      findAll "tr" t2 = [] →
      stockPerformersWs t3 = .ok r3 →
      (sp500 doc).1 = .ok (some ⟨d1, none, r3⟩)) := by
  constructor
  · intro doc t h1 h2
    simp [sp500, locateLoop, h1, h2]
  · intro doc t1 t2 t3 d1 r3 n hl hp hg hd
    have hg2 : stockPerformersWs t2 = .ok none := by simp [stockPerformersWs, hg]
    simp [sp500, hl, hp, hg2, hd]

/-- Claim C1 witness: the amended statement at the concrete pages. -/
theorem c1_no_partial_bundle_witness :
    sp500 emptyPerfDoc = (.ok none, 1) ∧
    (sp500 partialDoc).1 =
      .ok (some ⟨[("1 Day", "+1.2%"), ("1 Year", "+15.0%")], none,
        some ⟨["Sym", "Price"], [[some "CCC", some "3.0"]]⟩⟩) :=
  ⟨c1_no_partial_bundle_amended.1 emptyPerfDoc
      (.elem "div" "element element--table performance" []) rfl rfl,
   c1_no_partial_bundle_amended.2 partialDoc perfDiv gainersDivNoRows declinersDiv
      [("1 Day", "+1.2%"), ("1 Year", "+15.0%")]
      (some ⟨["Sym", "Price"], [[some "CCC", some "3.0"]]⟩) 3 rfl rfl rfl rfl⟩

/-- Claim C2 counterexample: on zero cells the period parser returns the
empty mapping, and on an odd count it raises an unhandled `IndexError`; in
neither case does it produce the typed `StructureMismatch` failure. -/
theorem c2_parser_zero_odd_cex :
    parsePairs ([] : List String) = .ok [] ∧
    parsePairs ["X"] = .error .indexErrorOutOfRange :=
  ⟨rfl, rfl⟩

/-- Claim C2 (amended): for every cell sequence, an odd total cell count
makes the period parser raise an unhandled `IndexError` (not a typed
failure), and a zero cell count yields the empty mapping (not a
failure). -/
theorem c2_parser_zero_odd_amended (cells : List String) :
    (cells.length % 2 = 1 → parsePairs cells = .error .indexErrorOutOfRange) ∧
    (cells = [] → parsePairs cells = .ok []) := by
  constructor
  · intro h
    exact pairLoop_odd cells [] h
  · intro h
    subst h
    rfl

/-- Claim C2 witness: the amended statement at concrete cell sequences. -/
theorem c2_parser_zero_odd_witness :
    parsePairs ["1 Day", "+1.2%", "5 Day"] = .error .indexErrorOutOfRange ∧
    parsePairs ([] : List String) = .ok [] :=
  ⟨(c2_parser_zero_odd_amended ["1 Day", "+1.2%", "5 Day"]).1 (by decide),
   (c2_parser_zero_odd_amended []).2 rfl⟩

/-- Claim C3 (code bug): when no element's class matches the pattern for
the requested metric, the code does NOT fail with the typed
structure-mismatch signal its own check intends ("The web-scrape metric
name seems to be changed for ...") — `find` returns `None` and
`len(ws_metric)` raises `TypeError`, which escapes the whole call. -/
theorem c3_locator_no_match_bug (doc : Node)
    (h : locateMetric doc performanceByPeriod = none) :
    sp500 doc = (.error .typeErrorNoneHasNoLen, 1) := by
  simp [sp500, locateLoop, h]

/-- Claim C3 witness: the failing behaviour at a concrete page with no
matching element. -/
theorem c3_locator_no_match_bug_witness :
    sp500 emptyDoc = (.error .typeErrorNoneHasNoLen, 1) :=
  c3_locator_no_match_bug emptyDoc rfl

/-- Claim C4 counterexample: a fully successful scrape performs three
outbound GETs, not one — the page is re-fetched and re-parsed inside the
loop for every metric. -/
theorem c4_single_get_cex :
    (sp500 goodDoc).2 = 3 ∧
    (sp500 goodDoc).1 =
      .ok (some ⟨[("1 Day", "+1.2%"), ("1 Year", "+15.0%")],
        some ⟨["Sym", "Price"], [[some "AAA", some "1.0"], [some "BBB", some "2.0"]]⟩,
        some ⟨["Sym", "Price"], [[some "CCC", some "3.0"]]⟩⟩) :=
  ⟨rfl, rfl⟩

/-- Claim C4 (amended): each scrape call performs one HTTP GET per metric
lookup — three GETs whenever a bundle is returned — rather than fetching
once and reusing a single parsed document. -/
theorem c4_get_per_metric_amended (doc : Node) (b : Sp500Data)
    (h : (sp500 doc).1 = .ok (some b)) : (sp500 doc).2 = 3 := by
  obtain ⟨ts, hts⟩ := sp500_success_locate doc b h
  have h3 := locateLoop_count doc
    [performanceByPeriod, performanceTopStocks, performanceBottomStocks] ts hts
  rw [sp500_count doc, h3]
  rfl

/-- Claim C4 witness: the amended statement at the concrete well-formed
page. -/
theorem c4_get_per_metric_witness : (sp500 goodDoc).2 = 3 :=
  c4_get_per_metric_amended goodDoc
    ⟨[("1 Day", "+1.2%"), ("1 Year", "+15.0%")],
      some ⟨["Sym", "Price"], [[some "AAA", some "1.0"], [some "BBB", some "2.0"]]⟩,
      some ⟨["Sym", "Price"], [[some "CCC", some "3.0"]]⟩⟩ rfl

/-- Claim C5: when row 0 yields `N` non-empty fragments and each of the `k`
later rows also yields `N` fragments, the extractor returns a table whose
header has length `N` and whose `k` data rows each have length `N`, every
cell being a present, non-empty fragment (empty fragments were dropped, not
turned into empty cells). -/
theorem c5_extractor_rectangular (d t0 : Node) (rest : List Node) (N : Nat)
    (hrows : findAll "tr" d = t0 :: rest)
    (hhead : (splitFilter (nodeText t0)).length = N)
    (hdata : ∀ t ∈ rest, (splitFilter (nodeText t)).length = N) :
    stockPerformersWs d = .ok (some ⟨splitFilter (nodeText t0),
      rest.map (fun t => (splitFilter (nodeText t)).map some)⟩) ∧
    (splitFilter (nodeText t0)).length = N ∧
    (rest.map (fun t => (splitFilter (nodeText t)).map some)).length = rest.length ∧
    (∀ r ∈ rest.map (fun t => (splitFilter (nodeText t)).map some), r.length = N) ∧
    (∀ r ∈ rest.map (fun t => (splitFilter (nodeText t)).map some),
      ∀ c ∈ r, ∃ s, c = some s ∧ s ≠ "") := by
  refine ⟨?_, hhead, by simp, ?_, ?_⟩
  · unfold stockPerformersWs
    rw [hrows]
    cases rest with
    | nil => simp [dataFrame, Except.map]
    | cons r rs =>
      have hlen : ∀ x ∈ (r :: rs).map (fun t => splitFilter (nodeText t)), x.length = N := by
        intro x hx
        obtain ⟨t, ht, rfl⟩ := List.mem_map.mp hx
        exact hdata t ht
      have hmax : maxLen ((r :: rs).map (fun t => splitFilter (nodeText t))) = N :=
        maxLen_const _ N (by simp) hlen
      have hpad := map_padRow_eq ((r :: rs).map (fun t => splitFilter (nodeText t))) N hlen
      simp only [List.map_cons] at hmax hpad
      simp [dataFrame, hmax, hhead, hpad, Except.map, List.map_map, Function.comp]
      exact ⟨padRow_eq _ N (hdata r (by simp)),
        fun a ha => padRow_eq _ N (hdata a (by simp [ha]))⟩
  · intro x hx
    obtain ⟨t, ht, rfl⟩ := List.mem_map.mp hx
    simp [hdata t ht]
  · intro x hx c hc
    obtain ⟨t, ht, rfl⟩ := List.mem_map.mp hx
    obtain ⟨s, hs, rfl⟩ := List.mem_map.mp hc
    exact ⟨s, rfl, splitFilter_ne_empty hs⟩

/-- Claim C5 witness: the rectangular-table statement at the concrete
gainers block (header of 2 fragments, 2 data rows of 2 fragments each). -/
theorem c5_extractor_rectangular_witness :
    stockPerformersWs gainersDiv =
      .ok (some ⟨["Sym", "Price"], [[some "AAA", some "1.0"], [some "BBB", some "2.0"]]⟩) :=
  (c5_extractor_rectangular gainersDiv (trN "Sym\nPrice")
    [trN "AAA\n1.0", trN "BBB\n2.0"] 2 rfl rfl (by decide)).1

/-- Claim C6: on an even-length cell sequence the period parser succeeds
and builds exactly the pairwise mapping the spec describes (even-indexed
cell, line breaks stripped, mapped to the following odd-indexed cell); in
particular the spec's example sequence yields its example mapping. -/
theorem c6_parser_pairwise :
    (∀ cells : List String, cells.length % 2 = 0 →
      parsePairs cells = .ok (specPairwiseMap cells)) ∧
    parsePairs ["1 Day", "+1.2%", "1 Year", "+15.0%"] =
      .ok [("1 Day", "+1.2%"), ("1 Year", "+15.0%")] := by
  constructor
  · intro cells h
    exact pairLoop_even cells [] h
  · rfl

/-- Claim C6 witness: the pairwise statement at a concrete even-length
sequence. -/
theorem c6_parser_pairwise_witness :
    parsePairs ["a\nx", "1", "b", "2"] = .ok (specPairwiseMap ["a\nx", "1", "b", "2"]) ∧
    specPairwiseMap ["a\nx", "1", "b", "2"] = [("ax", "1"), ("b", "2")] :=
  ⟨c6_parser_pairwise.1 ["a\nx", "1", "b", "2"] (by decide), by rfl⟩

/-- Claim C7: a container whose row enumeration yields zero rows makes the
table extractor return the distinguished failure value `None` — never any
table, in particular not an empty one. -/
theorem c7_extractor_zero_rows (d : Node) (h : findAll "tr" d = []) :
    stockPerformersWs d = .ok none ∧ ∀ f : Frame, stockPerformersWs d ≠ .ok (some f) := by
  have he : stockPerformersWs d = .ok none := by simp [stockPerformersWs, h]
  refine ⟨he, fun f hf => ?_⟩
  rw [he] at hf
  simp at hf

/-- Claim C7 witness: the zero-rows statement at a concrete row-less
container. -/
theorem c7_extractor_zero_rows_witness :
    stockPerformersWs noRowsContainer = .ok none :=
  (c7_extractor_zero_rows noRowsContainer rfl).1

/-- Claim C8: on an even-length cell sequence, looking any label up in the
parser's resulting mapping yields the value paired with the label's last
occurrence (last-write-wins); in particular `["X","1","X","2"]` yields the
one-entry mapping `X ↦ 2`. -/
theorem c8_parser_last_write_wins :
    (∀ (cells : List String) (k : String), cells.length % 2 = 0 →
      parsePairs cells = .ok (specPairwiseMap cells) ∧
      dictGet (specPairwiseMap cells) k = lastVal (specPairs cells) k) ∧
    parsePairs ["X", "1", "X", "2"] = .ok [("X", "2")] := by
  constructor
  · intro cells k h
    refine ⟨pairLoop_even cells [] h, ?_⟩
    have h2 := dictGet_foldl (specPairs cells) [] k
    simpa [specPairwiseMap, lastVal, dictGet] using h2
  · rfl

/-- Claim C8 witness: the last-write-wins statement at the duplicated
label. -/
theorem c8_parser_last_write_wins_witness :
    parsePairs ["X", "1", "X", "2"] = .ok (specPairwiseMap ["X", "1", "X", "2"]) ∧
    dictGet (specPairwiseMap ["X", "1", "X", "2"]) "X" =
      lastVal (specPairs ["X", "1", "X", "2"]) "X" :=
  c8_parser_last_write_wins.1 ["X", "1", "X", "2"] "X" (by decide)

/-- Claim C9: an index identifier outside the supported set (after the
code's upper-casing) makes `IndexView.__init__` raise its configuration
warning at once, with an empty side-effect trace — in particular no network
access happens before the failure. -/
theorem c9_unsupported_index (index : String)
    (h : AVAILABLE_INDEX.contains (pyUpper index) = false) :
    indexViewInit index = (some .warningUnsupportedIndex, []) ∧
    InitEvent.networkGet ∉ (indexViewInit index).2 := by
  have he : indexViewInit index = (some .warningUnsupportedIndex, []) := by
    have h2 : pyUpper index ∉ AVAILABLE_INDEX := by simpa using h
    simp [indexViewInit, h2]
  refine ⟨he, ?_⟩
  rw [he]
  simp

/-- Claim C9 witness: the unsupported-index statement at `"DOW"`. -/
theorem c9_unsupported_index_witness :
    indexViewInit "DOW" = (some .warningUnsupportedIndex, []) :=
  (c9_unsupported_index "DOW" rfl).1

/-- Claim C10 counterexample: header of two fragments, a single data row of
one fragment — pandas raises (`2 columns passed, passed data had 1
columns`) instead of padding the short row, so a short row is NOT always
padded. -/
theorem c10_short_row_cex :
    (splitFilter (nodeText (trN "A\nB"))).length = 2 ∧
    (splitFilter (nodeText (trN "x"))).length = 1 ∧
    stockPerformersWs shortRowContainer = .error (.valueErrorColumnsMismatch 2 1) :=
  ⟨rfl, rfl, rfl⟩

/-- Claim C10 (amended): with a non-empty header and at least one data row,
a data row shorter than the header is padded with null cells exactly when
the widest data row's fragment count equals the header's; whenever that
widest count differs from the header's — every row shorter, or some row
longer — the extraction raises a column-count exception instead of
returning a typed failure value. -/
theorem c10_row_width_policy_amended (d t0 : Node) (rest : List Node)
    (hrows : findAll "tr" d = t0 :: rest) (hne : rest ≠ []) :
    ((splitFilter (nodeText t0)).length
        = maxLen (rest.map (fun t => splitFilter (nodeText t))) →
      stockPerformersWs d = .ok (some ⟨splitFilter (nodeText t0),
        (rest.map (fun t => splitFilter (nodeText t))).map
          (padRow (maxLen (rest.map (fun t => splitFilter (nodeText t)))))⟩)) ∧
    ((splitFilter (nodeText t0)).length
        ≠ maxLen (rest.map (fun t => splitFilter (nodeText t))) →
      stockPerformersWs d = .error (.valueErrorColumnsMismatch
        (splitFilter (nodeText t0)).length
        (maxLen (rest.map (fun t => splitFilter (nodeText t)))))) := by
  cases rest with
  | nil => exact absurd rfl hne
  | cons r rs =>
    constructor
    · intro hcond
      unfold stockPerformersWs
      rw [hrows]
      simp only [List.map_cons] at hcond ⊢
      simp [dataFrame, hcond, Except.map]
    · intro hcond
      unfold stockPerformersWs
      rw [hrows]
      simp only [List.map_cons] at hcond ⊢
      simp [dataFrame, hcond, Except.map]

/-- Claim C10 witness: the row-width policy at concrete containers — the
padding branch on the mixed-width container and the exception branch on the
all-short container. -/
theorem c10_row_width_policy_witness :
    stockPerformersWs mixedRowContainer =
      .ok (some ⟨["A", "B"], [[some "x", some "y"], [some "z", none]]⟩) ∧
    stockPerformersWs shortRowContainer = .error (.valueErrorColumnsMismatch 2 1) :=
  ⟨(c10_row_width_policy_amended mixedRowContainer (trN "A\nB")
      [trN "x\ny", trN "z"] rfl (by simp)).1 rfl,
   (c10_row_width_policy_amended shortRowContainer (trN "A\nB")
      [trN "x"] rfl (by simp)).2 (by decide)⟩

end StockMarket
